import Mathlib

/-!
Verification of the constraint algebra of the vsolver dependency resolver,
shallowly embedded from src/constraints.go.

The file first embeds the data model and the operations (`Matches`,
`MatchesAny`, `Intersect`, `NewConstraint`), then proves or refutes the
stated properties.  Code that the repository keeps outside
src/constraints.go (the Version family of version.go, the ConstraintType
enumeration) and the external semver interval package are modelled from the
specification and marked as such in their doc comments.
-/

namespace Vsolver

/-- Modelled from the spec: the ordered major/minor/patch triple of a parsed
semantic version.  The version family is external to this core; only
ordering and equality on the triple are consumed here. -/
structure Sv where
  major : Nat
  minor : Nat
  patch : Nat
deriving DecidableEq

/-- Strict lexicographic order on semantic versions (standard comparator
semantics over major/minor/patch). -/
def svLt (a b : Sv) : Bool :=
  if a.major ≠ b.major then decide (a.major < b.major)
  else if a.minor ≠ b.minor then decide (a.minor < b.minor)
  else decide (a.patch < b.patch)

/-- One endpoint of a semantic-version interval: the bounding version and
whether the endpoint is inclusive. -/
structure Bound where
  v : Sv
  incl : Bool
deriving DecidableEq

/-- A semantic-version interval, with optional lower and upper bounds
(`none` meaning unbounded on that side). -/
structure Ival where
  lo : Option Bound
  hi : Option Bound
deriving DecidableEq

/-- Whether a version is on the admissible side of a lower bound. -/
def boundSatLo : Option Bound → Sv → Bool
  | none, _ => true
  | some b, v => svLt b.v v || (decide (b.v = v) && b.incl)

/-- Whether a version is on the admissible side of an upper bound. -/
def boundSatHi : Option Bound → Sv → Bool
  | none, _ => true
  | some b, v => svLt v b.v || (decide (v = b.v) && b.incl)

/-- Membership of a semantic version in one interval. -/
def svIn (i : Ival) (v : Sv) : Bool :=
  boundSatLo i.lo v && boundSatHi i.hi v

/-- The larger of two lower bounds; on equal versions the combined bound is
inclusive only when both are. -/
def maxLower : Option Bound → Option Bound → Option Bound
  | none, b => b
  | a, none => a
  | some a, some b =>
    if svLt a.v b.v then some b
    else if svLt b.v a.v then some a
    else some ⟨a.v, a.incl && b.incl⟩

/-- The smaller of two upper bounds; on equal versions the combined bound is
inclusive only when both are. -/
def minUpper : Option Bound → Option Bound → Option Bound
  | none, b => b
  | a, none => a
  | some a, some b =>
    if svLt a.v b.v then some a
    else if svLt b.v a.v then some b
    else some ⟨a.v, a.incl && b.incl⟩

/-- Intersection of two intervals: the product of their bounds. -/
def ivalInter (i j : Ival) : Ival :=
  ⟨maxLower i.lo j.lo, minUpper i.hi j.hi⟩

/-- A non-degenerate interval, as judged from its bounds. -/
def ivalSat (i : Ival) : Bool :=
  match i.lo, i.hi with
  | some l, some h => svLt l.v h.v || (decide (l.v = h.v) && l.incl && h.incl)
  | _, _ => true

/-- Modelled from the spec: the external semver package's constraint type at
the interface boundary this core consumes — either the package's canonical
none value or a union of intervals. -/
inductive SC
  | scnone
  | range (ivs : List Ival)
deriving DecidableEq

/-- Models the external semver package's IsNone test: a check of the
canonical none value. -/
def SC.isNone : SC → Bool
  | .scnone => true
  | .range _ => false

/-- Modelled from the spec: membership in a union of intervals — a version
is a member iff it falls within at least one interval component.  Models
the external semver package's Matches (a nil result meaning a match). -/
def SC.matches : SC → Sv → Bool
  | .scnone, _ => false
  | .range ivs, v => ivs.any fun i => svIn i v

/-- The interval-wise product of two unions of intervals, keeping only the
non-empty resulting intervals. -/
def ivalProd (a b : List Ival) : List Ival :=
  (a.flatMap fun i => b.map fun j => ivalInter i j).filter ivalSat

/-- Modelled from the spec: intersection in the external semver package —
interval-wise intersection, with an empty result set collapsing to the
package's canonical none value. -/
def SC.intersect : SC → SC → SC
  | .scnone, _ => .scnone
  | _, .scnone => .scnone
  | .range a, .range b =>
    if (ivalProd a b).isEmpty then .scnone else .range (ivalProd a b)

/-- Modelled from the spec: a bare semver version standing as a semver
constraint admits exactly itself (the external package lets a version value
act as a constraint). -/
def svSingle (v : Sv) : SC :=
  .range [⟨some ⟨v, true⟩, some ⟨v, true⟩⟩]

/-- Modelled from the spec: the Version family, defined in version.go which
is not among the sources here.  `versionPair` pairs an underlying version
with the revision it is known to correspond to. -/
inductive Version
  | semverVersion (sv : Sv)
  | plainVersion (s : String)
  | floatingVersion (s : String)
  | Revision (r : String)
  | versionPair (v : Version) (r : String)
deriving DecidableEq

/-- The semantic version directly carried by a version value: the Go type
assertion on semverVersion. -/
def asSemverVersion : Version → Option Sv
  | .semverVersion sv => some sv
  | _ => none

/-- Spec-side notion, named after the spec's words: the semantic-version
facet of a version — a bare semver version's own triple, or the semver
facet of the version underlying a pair. -/
def semverFacet : Version → Option Sv
  | .versionPair tv _ => asSemverVersion tv
  | v => asSemverVersion v

/-- The closed set of Constraint implementations: semverConstraint,
anyConstraint and noneConstraint from src/constraints.go, together with the
version values, which also implement the Constraint interface
(version.go). -/
inductive Constraint
  | semverConstraint (c : SC)
  | anyConstraint
  | noneConstraint
  | versionC (v : Version)
deriving DecidableEq

/-- The `rc` value computed by the type switch of semverConstraint.Intersect
(src/constraints.go lines 83-95): a bare semver version or a pair carrying
one is intersected as a single version, a semver constraint is intersected
directly, and every other operand leaves `rc` at the package's none
value. -/
def semverRC (c : SC) (c2 : Constraint) : SC :=
  match c2 with
  | .versionC (.semverVersion sv) => SC.intersect c (svSingle sv)
  | .semverConstraint tc => SC.intersect c tc
  | .versionC (.versionPair tv _) =>
    match asSemverVersion tv with
    | some sv => SC.intersect c (svSingle sv)
    | none => SC.scnone
  | _ => SC.scnone

/-- Modelled from the spec: Intersect for a version value used as a
constraint (version.go): the universal sentinel returns the constraint
itself, an identical version-constraint returns itself, and anything else
is the empty sentinel. -/
def versionIntersect (v : Version) (c2 : Constraint) : Constraint :=
  match c2 with
  | .anyConstraint => .versionC v
  | .versionC v2 => if v = v2 then .versionC v else .noneConstraint
  | _ => .noneConstraint

/-- Intersect, dispatching on the receiver's dynamic type as Go does
(src/constraints.go lines 83-101, 119-121, 139-141; the version-value
receivers are modelled from the spec). -/
def Intersect : Constraint → Constraint → Constraint
  | .semverConstraint c, c2 =>
    if (semverRC c c2).isNone then .noneConstraint
    else .semverConstraint (semverRC c c2)
  | .anyConstraint, c2 => c2
  | .noneConstraint, _ => .noneConstraint
  | .versionC v, c2 => versionIntersect v c2

/-- Modelled from the spec: membership for a version value used as a
constraint (version.go): equality of the stored key against the
corresponding facet of the candidate, a missing facet failing the match. -/
def versionMatches (cv : Version) (v : Version) : Bool :=
  match cv with
  | .Revision r =>
    (match v with
     | .Revision r2 => decide (r2 = r)
     | .versionPair _ r2 => decide (r2 = r)
     | _ => false)
  | .floatingVersion s =>
    (match v with
     | .floatingVersion s2 => decide (s2 = s)
     | .versionPair (.floatingVersion s2) _ => decide (s2 = s)
     | _ => false)
  | .plainVersion s =>
    (match v with
     | .plainVersion s2 => decide (s2 = s)
     | .versionPair (.plainVersion s2) _ => decide (s2 = s)
     | _ => false)
  | .semverVersion sv =>
    (match semverFacet v with
     | some sv2 => decide (sv2 = sv)
     | none => false)
  | .versionPair tv r =>
    versionMatches tv v ||
    (match v with
     | .Revision r2 => decide (r2 = r)
     | .versionPair _ r2 => decide (r2 = r)
     | _ => false)

/-- Matches, dispatching on the receiver's dynamic type
(src/constraints.go lines 66-77, 111-113, 131-133; the version-value
receivers are modelled from the spec). -/
def Matches : Constraint → Version → Bool
  | .semverConstraint c, v =>
    (match v with
     | .semverVersion sv => SC.matches c sv
     | .versionPair tv _ =>
       (match asSemverVersion tv with
        | some sv => SC.matches c sv
        | none => false)
     | _ => false)
  | .anyConstraint, _ => true
  | .noneConstraint, _ => false
  | .versionC cv, v => versionMatches cv v

/-- MatchesAny, dispatching on the receiver's dynamic type
(src/constraints.go lines 79-81, 115-117, 135-137; the version-value
receivers are modelled from the spec as an inequality of the intersection
against the empty sentinel). -/
def MatchesAny (c c2 : Constraint) : Bool :=
  match c with
  | .semverConstraint sc =>
    if Intersect (.semverConstraint sc) c2 = Constraint.noneConstraint then false else true
  | .anyConstraint => true
  | .noneConstraint => false
  | .versionC v =>
    if versionIntersect v c2 = Constraint.noneConstraint then false else true

/-- Modelled from the spec: the branch kind of the ConstraintType
enumeration, which is declared outside src/constraints.go. -/
def BranchConstraint : Nat := 0

/-- Modelled from the spec: the revision kind of the ConstraintType
enumeration. -/
def RevisionConstraint : Nat := 1

/-- Modelled from the spec: the version kind of the ConstraintType
enumeration. -/
def VersionConstraint : Nat := 2

/-- NewConstraint (src/constraints.go lines 41-56).  The `parse` argument
stands for the external semver range parser, with `none` modelling a parse
error. -/
def NewConstraint (parse : String → Option SC) (t : Nat) (body : String) :
    Except String Constraint :=
  if t = BranchConstraint then .ok (.versionC (.floatingVersion body))
  else if t = RevisionConstraint then .ok (.versionC (.Revision body))
  else if t = VersionConstraint then
    match parse body with
    | none => .ok (.versionC (.plainVersion body))
    | some c => .ok (.semverConstraint c)
  else .error "Unknown ConstraintType provided"

/-- The range whose source text is ">=1.0.0". -/
def scGE100 : SC := .range [⟨some ⟨⟨1, 0, 0⟩, true⟩, none⟩]

/-- The range whose source text is ">=2.0.0". -/
def scGE200 : SC := .range [⟨some ⟨⟨2, 0, 0⟩, true⟩, none⟩]

/-- A semver range parser that rejects every input. -/
def parseFail : String → Option SC := fun _ => none

/-- A semver range parser that accepts every input as the range ">=1.0.0". -/
def parseConst : String → Option SC := fun _ => some scGE100

/-- Every interval kept by the interval-wise product is non-degenerate. -/
theorem ivalProd_sat (a b : List Ival) : (ivalProd a b).all ivalSat = true := by
  apply List.all_eq_true.2
  intro x hx
  exact (List.mem_filter.1 hx).2

/-- The modelled semver intersection is always normalized: it is either the
package's none value or a non-empty union of non-degenerate intervals. -/
theorem sc_intersect_normal (a b : SC) :
    SC.intersect a b = SC.scnone ∨
    ∃ l, SC.intersect a b = SC.range l ∧ l ≠ [] ∧ l.all ivalSat = true := by
  cases a with
  | scnone =>
    cases b with
    | scnone => exact Or.inl rfl
    | range ib => exact Or.inl rfl
  | range ia =>
    cases b with
    | scnone => exact Or.inl rfl
    | range ib =>
      by_cases h : (ivalProd ia ib).isEmpty = true
      · left
        simp [SC.intersect, h]
      · right
        refine ⟨ivalProd ia ib, ?_, ?_, ivalProd_sat ia ib⟩
        · simp [SC.intersect, h]
        · intro hnil
          exact h (by rw [hnil]; rfl)

/-- The `rc` value of semverConstraint.Intersect is always normalized. -/
theorem semverRC_normal (c : SC) (c2 : Constraint) :
    semverRC c c2 = SC.scnone ∨
    ∃ l, semverRC c c2 = SC.range l ∧ l ≠ [] ∧ l.all ivalSat = true := by
  cases c2 with
  | semverConstraint tc => exact sc_intersect_normal c tc
  | anyConstraint => exact Or.inl rfl
  | noneConstraint => exact Or.inl rfl
  | versionC v =>
    cases v with
    | semverVersion sv => exact sc_intersect_normal c (svSingle sv)
    | plainVersion s => exact Or.inl rfl
    | floatingVersion s => exact Or.inl rfl
    | Revision r => exact Or.inl rfl
    | versionPair tv r =>
      cases tv with
      | semverVersion sv => exact sc_intersect_normal c (svSingle sv)
      | plainVersion s => exact Or.inl rfl
      | floatingVersion s => exact Or.inl rfl
      | Revision r2 => exact Or.inl rfl
      | versionPair tv2 r2 => exact Or.inl rfl

/-- Claim C1 (refuted as stated, code bug): the universal sentinel is only a
left identity for Intersect.  Intersecting the range ">=1.0.0" with the
universal sentinel on the right yields the empty sentinel, because the type
switch of semverConstraint.Intersect has no case for anyConstraint, so the
operand falls through to the default none value. -/
theorem C1_universal_identity_eval :
    Intersect .anyConstraint (.semverConstraint scGE100) = .semverConstraint scGE100 ∧
    Intersect (.semverConstraint scGE100) .anyConstraint = .noneConstraint :=
  ⟨rfl, rfl⟩

/-- Claim C2 (refuted as stated, code bug): Intersect is not commutative:
the range ">=2.0.0" intersected with the universal sentinel gives the empty
sentinel, while the reversed application gives the range back. -/
theorem C2_commutativity_eval :
    Intersect (.semverConstraint scGE200) .anyConstraint ≠
      Intersect .anyConstraint (.semverConstraint scGE200) := by
  decide

/-- Claim C3, counterexample: the universal sentinel reports compatibility
with the empty sentinel although their intersection is the empty
sentinel. -/
theorem C3_counterexample :
    MatchesAny .anyConstraint .noneConstraint = true ∧
    Intersect .anyConstraint .noneConstraint = .noneConstraint :=
  ⟨rfl, rfl⟩

/-- Claim C3 (amended): MatchesAny agrees with `Intersect ≠ empty` for every
pair of constraints except the universal sentinel against the empty
sentinel, where MatchesAny is unconditionally true while the intersection
is the empty sentinel. -/
theorem C3_matchesAny_agrees (a b : Constraint)
    (h : ¬(a = Constraint.anyConstraint ∧ b = Constraint.noneConstraint)) :
    MatchesAny a b = true ↔ Intersect a b ≠ Constraint.noneConstraint := by
  cases a with
  | semverConstraint sc =>
    by_cases hI : Intersect (.semverConstraint sc) b = Constraint.noneConstraint
    · simp [MatchesAny, hI]
    · simp [MatchesAny, hI]
  | anyConstraint =>
    have hb : b ≠ Constraint.noneConstraint := fun hb => h ⟨rfl, hb⟩
    simp [MatchesAny, Intersect, hb]
  | noneConstraint => simp [MatchesAny, Intersect]
  | versionC v =>
    by_cases hI : versionIntersect v b = Constraint.noneConstraint
    · simp [MatchesAny, Intersect, hI]
    · simp [MatchesAny, Intersect, hI]

/-- Witness for the amended C3 at the concrete pair of the ranges
">=1.0.0" and ">=2.0.0". -/
theorem C3_matchesAny_agrees_witness :
    (¬(Constraint.semverConstraint scGE100 = Constraint.anyConstraint ∧
        Constraint.semverConstraint scGE200 = Constraint.noneConstraint)) ∧
    (MatchesAny (.semverConstraint scGE100) (.semverConstraint scGE200) = true ↔
      Intersect (.semverConstraint scGE100) (.semverConstraint scGE200) ≠
        Constraint.noneConstraint) :=
  ⟨by decide, C3_matchesAny_agrees _ _ (by decide)⟩

/-- Claim C4: the empty sentinel absorbs Intersect on both sides, for every
constraint variant. -/
theorem C4_empty_absorbs (c : Constraint) :
    Intersect c .noneConstraint = .noneConstraint ∧
    Intersect .noneConstraint c = .noneConstraint := by
  refine ⟨?_, rfl⟩
  cases c with
  | semverConstraint sc => rfl
  | anyConstraint => rfl
  | noneConstraint => rfl
  | versionC v => rfl

/-- Claim C5: intersecting a range constraint always normalizes: the result
is either exactly the empty sentinel, or a range constraint over a
non-empty list of non-degenerate intervals — never a range constraint
wrapping an empty interval set. -/
theorem C5_empty_normalized (sc : SC) (c2 : Constraint) :
    Intersect (.semverConstraint sc) c2 = .noneConstraint ∨
    ∃ l, Intersect (.semverConstraint sc) c2 = .semverConstraint (.range l) ∧
      l ≠ [] ∧ l.all ivalSat = true := by
  rcases semverRC_normal sc c2 with h | ⟨l, h, hne, hall⟩
  · left
    simp [Intersect, h, SC.isNone]
  · right
    exact ⟨l, by simp [Intersect, h, SC.isNone], hne, hall⟩

/-- Equation for NewConstraint at the version kind: the parse outcome alone
decides between the range constraint and the literal fallback. -/
theorem newConstraint_version (parse : String → Option SC) (body : String) :
    NewConstraint parse VersionConstraint body =
      match parse body with
      | none => .ok (.versionC (.plainVersion body))
      | some c => .ok (.semverConstraint c) := rfl

/-- Claim C6: building a constraint with the version kind never fails: a
successful parse yields a range constraint, a failed parse falls back to a
literal constraint over the raw string, with no error either way. -/
theorem C6_version_fallback (parse : String → Option SC) (body : String) :
    (∃ c, NewConstraint parse VersionConstraint body = .ok c) ∧
    (∀ sc, parse body = some sc →
      NewConstraint parse VersionConstraint body = .ok (.semverConstraint sc)) ∧
    (parse body = none →
      NewConstraint parse VersionConstraint body =
        .ok (.versionC (.plainVersion body))) := by
  refine ⟨?_, ?_, ?_⟩
  · cases hp : parse body with
    | none => exact ⟨_, by rw [newConstraint_version, hp]⟩
    | some c => exact ⟨_, by rw [newConstraint_version, hp]⟩
  · intro sc hp
    rw [newConstraint_version, hp]
  · intro hp
    rw [newConstraint_version, hp]

/-- Witness for C6: a parser that accepts gives the range constraint, and a
parser that rejects gives the literal fallback without an error. -/
theorem C6_version_fallback_witness :
    NewConstraint parseConst VersionConstraint "x" =
      .ok (.semverConstraint scGE100) ∧
    NewConstraint parseFail VersionConstraint "not-a-semver-string" =
      .ok (.versionC (.plainVersion "not-a-semver-string")) :=
  ⟨(C6_version_fallback parseConst "x").2.1 scGE100 rfl,
   (C6_version_fallback parseFail "not-a-semver-string").2.2 rfl⟩

/-- Claim C7: the factory returns a constraint with no error for the branch,
revision and version kinds, and fails with the unknown-kind error, producing
no constraint, for every other kind. -/
theorem C7_unknown_kind (parse : String → Option SC) (t : Nat) (body : String) :
    ((t = BranchConstraint ∨ t = RevisionConstraint ∨ t = VersionConstraint) →
      ∃ c, NewConstraint parse t body = .ok c) ∧
    (t ≠ BranchConstraint → t ≠ RevisionConstraint → t ≠ VersionConstraint →
      NewConstraint parse t body = .error "Unknown ConstraintType provided") := by
  constructor
  · rintro (rfl | rfl | rfl)
    · exact ⟨_, rfl⟩
    · exact ⟨_, rfl⟩
    · cases hp : parse body with
      | none => exact ⟨_, by rw [newConstraint_version, hp]⟩
      | some c => exact ⟨_, by rw [newConstraint_version, hp]⟩
  · intro h0 h1 h2
    simp [NewConstraint, h0, h1, h2]

/-- Witness for C7: the revision kind succeeds and the kind 7 fails with
the unknown-kind error. -/
theorem C7_unknown_kind_witness :
    (∃ c, NewConstraint parseFail RevisionConstraint "x" = .ok c) ∧
    NewConstraint parseFail 7 "x" = .error "Unknown ConstraintType provided" :=
  ⟨(C7_unknown_kind parseFail RevisionConstraint "x").1 (Or.inr (Or.inl rfl)),
   (C7_unknown_kind parseFail 7 "x").2 (by decide) (by decide) (by decide)⟩

/-- Claim C8: a range constraint matches a version exactly when the version
carries a semantic-version facet (directly or through a pair) lying in the
range; a version without such a facet never matches, and the test is total
rather than failing. -/
theorem C8_range_membership (sc : SC) (v : Version) :
    Matches (.semverConstraint sc) v = true ↔
      ∃ sv, semverFacet v = some sv ∧ SC.matches sc sv = true := by
  cases v with
  | semverVersion sv => simp [Matches, semverFacet, asSemverVersion]
  | plainVersion s => simp [Matches, semverFacet, asSemverVersion]
  | floatingVersion s => simp [Matches, semverFacet, asSemverVersion]
  | Revision r => simp [Matches, semverFacet, asSemverVersion]
  | versionPair tv r =>
    cases tv <;> simp [Matches, semverFacet, asSemverVersion]

/-- Claim C9: intersecting a range constraint with a non-sentinel constraint
of a different variant — an exact revision, a floating branch or a plain
literal — yields the empty sentinel, in both operand orders. -/
theorem C9_cross_variant (sc : SC) (r s p : String) :
    Intersect (.semverConstraint sc) (.versionC (.Revision r)) = .noneConstraint ∧
    Intersect (.semverConstraint sc) (.versionC (.floatingVersion s)) = .noneConstraint ∧
    Intersect (.semverConstraint sc) (.versionC (.plainVersion p)) = .noneConstraint ∧
    Intersect (.versionC (.Revision r)) (.semverConstraint sc) = .noneConstraint ∧
    Intersect (.versionC (.floatingVersion s)) (.semverConstraint sc) = .noneConstraint ∧
    Intersect (.versionC (.plainVersion p)) (.semverConstraint sc) = .noneConstraint :=
  ⟨rfl, rfl, rfl, rfl, rfl, rfl⟩

/-- Claim C10: a range constraint's Intersect accepts bare version operands:
a semver version, or a pair carrying one, is intersected as a single
version (normalized to the empty sentinel when the result is empty), and a
pair whose underlying version is not a semver version yields the empty
sentinel. -/
theorem C10_bare_version_operands (sc : SC) (sv : Sv) (tv : Version) (r : String) :
    Intersect (.semverConstraint sc) (.versionC (.semverVersion sv)) =
      (if (SC.intersect sc (svSingle sv)).isNone then .noneConstraint
       else .semverConstraint (SC.intersect sc (svSingle sv))) ∧
    Intersect (.semverConstraint sc) (.versionC (.versionPair (.semverVersion sv) r)) =
      (if (SC.intersect sc (svSingle sv)).isNone then .noneConstraint
       else .semverConstraint (SC.intersect sc (svSingle sv))) ∧
    (asSemverVersion tv = none →
      Intersect (.semverConstraint sc) (.versionC (.versionPair tv r)) =
        .noneConstraint) := by
  refine ⟨rfl, rfl, fun h => ?_⟩
  cases tv with
  | semverVersion sv2 => simp [asSemverVersion] at h
  | plainVersion s => rfl
  | floatingVersion s => rfl
  | Revision r2 => rfl
  | versionPair tv2 r2 => rfl

/-- Witness for C10: a pair over a plain version carries no semver facet and
intersects the range ">=1.0.0" to the empty sentinel. -/
theorem C10_bare_version_operands_witness :
    asSemverVersion (Version.plainVersion "x") = none ∧
    Intersect (.semverConstraint scGE100)
      (.versionC (.versionPair (.plainVersion "x") "r")) = .noneConstraint :=
  ⟨rfl, (C10_bare_version_operands scGE100 ⟨1, 2, 3⟩ (.plainVersion "x") "r").2.2 rfl⟩

end Vsolver
